import Mathlib

/-!
Shallow embedding of the consultation-marketplace backend (DC_BACKEND):
the professional-matching and consultation-lifecycle engine from
`categories/models.py`, `categories/views.py` and `dashboard/views.py`.

Conventions of the embedding:
* Django `DateTimeField` values are modelled as integers (seconds); `timezone.now()`
  becomes an explicit `now : Int` argument.
* Python floats / `Decimal` fields are modelled as exact rationals `ℚ`; the spec's
  "within the rounding precision used" is idealised to exact arithmetic.
* Fallible endpoint handlers return an explicit response type mirroring the HTTP
  error / success branches of the source.
* Database rows are explicit values; a method that re-reads the stored row
  (`ConsultationRequest.objects.get(pk=self.pk)` inside `save`) takes the stored
  row as an explicit argument.
-/

namespace DCBackend

/-- The nine `STATUS_CHOICES` of `ConsultationRequest` (categories/models.py). -/
inductive Status where
  | pending
  | matched
  | accepted
  | rejected
  | scheduled
  | inProgress
  | completed
  | cancelled
  | expired
deriving DecidableEq, Repr

/-- The seven `STATUS_CHOICES` of `IncomingCall` (dashboard/models.py). -/
inductive OfferStatus where
  | pending
  | ringing
  | accepted
  | rejected
  | missed
  | expired
  | cancelled
deriving DecidableEq, Repr

/-- `ServiceCategory` (categories/models.py): the fields read by the
matching and pricing code. -/
structure ServiceCategory where
  id : Nat
  name : String
  active : Bool
  base_price : ℚ
  commission_rate : ℚ
  min_duration : Nat
  max_duration : Nat
deriving DecidableEq, Repr

/-- `accounts.ProfessionalProfile`: the fields read by the matcher.
`service_categories` is the many-to-many relation, kept as category ids. -/
structure ProfessionalProfile where
  id : Nat
  service_categories : List Nat
  specialty : String
  hourly_rate : ℚ
  rating : ℚ
  experience_years : Nat
  is_verified : Bool
  is_online : Bool
deriving DecidableEq, Repr

/-- `dashboard.ProfessionalStat`: the performance-metric fields. The model
defines `response_time_minutes`; it has NO attribute named `response_time`. -/
structure ProfessionalStat where
  professional : Nat
  average_rating : ℚ
  response_time_minutes : Nat
deriving DecidableEq, Repr

/-- `ConsultationRequest` (categories/models.py): the fields used by the
lifecycle, pricing and matching code. The professional is stored by id
(`None` until matched); timestamps are `Option Int` (`null=True`). -/
structure ConsultationRequest where
  id : Nat
  client : Nat
  professional : Option Nat
  category : ServiceCategory
  status : Status
  duration_minutes : Nat
  hourly_rate : ℚ
  total_amount : ℚ
  platform_fee : ℚ
  professional_earnings : ℚ
  matched_at : Option Int
  accepted_at : Option Int
  started_at : Option Int
  completed_at : Option Int
  cancelled_at : Option Int
  match_attempts : Nat
deriving DecidableEq, Repr

/-- `dashboard.IncomingCall`: the per-match call offer. -/
structure IncomingCall where
  professional : Nat
  consultation_id : Nat
  duration : Nat
  estimated_earnings : ℚ
  status : OfferStatus
  expires_at : Int
  responded_at : Option Int
  accepted_at : Option Int
  rejected_at : Option Int
deriving DecidableEq, Repr

/-- First half of `ConsultationRequest.save`: the pricing block.
`if self.duration_minutes and self.hourly_rate:` is Python truthiness, i.e.
both non-zero; `category` is a non-nullable foreign key, so `if self.category:`
is always taken. `hours = duration_minutes / 60` is true division. -/
def savePricing (self : ConsultationRequest) : ConsultationRequest :=
  if self.duration_minutes ≠ 0 ∧ self.hourly_rate ≠ 0 then
    let hours : ℚ := (self.duration_minutes : ℚ) / 60
    let total : ℚ := hours * self.hourly_rate
    let commission_percentage : ℚ := self.category.commission_rate / 100
    let fee : ℚ := total * commission_percentage
    { self with
        total_amount := total
        platform_fee := fee
        professional_earnings := total - fee }
  else
    self

/-- Second half of `ConsultationRequest.save`: the timestamp block. It runs
only when the row already exists (`if self.pk:`), re-reads the stored row
(`old`), and stamps the timestamp of the new status whenever the stored
status differs from the in-memory one. -/
def saveTimestamps (old : Option ConsultationRequest) (self : ConsultationRequest)
    (now : Int) : ConsultationRequest :=
  match old with
  | none => self
  | some oldRow =>
    if oldRow.status ≠ self.status then
      match self.status with
      | .matched => { self with matched_at := some now }
      | .accepted => { self with accepted_at := some now }
      | .inProgress => { self with started_at := some now }
      | .completed => { self with completed_at := some now }
      | .cancelled => { self with cancelled_at := some now }
      | _ => self
    else
      self

/-- `ConsultationRequest.save` (categories/models.py, lines 207-235):
pricing block, then timestamp block, then the actual write. `old` is the
stored row (`none` when the instance has no primary key yet). -/
def save (old : Option ConsultationRequest) (self : ConsultationRequest)
    (now : Int) : ConsultationRequest :=
  saveTimestamps old (savePricing self) now

/-- `ConsultationRequest.calculate_price` (categories/models.py, lines 284-295):
identical arithmetic to the pricing block of `save`, with the guard written as
`if not self.hourly_rate or not self.duration_minutes: return`. -/
def calculate_price (self : ConsultationRequest) : ConsultationRequest :=
  if self.hourly_rate = 0 ∨ self.duration_minutes = 0 then
    self
  else
    let hours : ℚ := (self.duration_minutes : ℚ) / 60
    let total : ℚ := hours * self.hourly_rate
    let commission_percentage : ℚ := self.category.commission_rate / 100
    let fee : ℚ := total * commission_percentage
    { self with
        total_amount := total
        platform_fee := fee
        professional_earnings := total - fee }

/-! ### The matcher (`SimpleAIMatcher` in categories/views.py) -/

/-- Load-penalty table of `SimpleAIMatcher._calculate_score` step 3
(categories/views.py, lines 119-125). -/
def loadPenalty (current_calls : Nat) : ℚ :=
  if current_calls ≥ 3 then -30
  else if current_calls = 2 then -15
  else if current_calls = 1 then -5
  else 0

/-- The `current_calls` query of `_calculate_score` step 3: the count of the
professional's `ConsultationRequest` rows whose status is in
`{matched, accepted, in_progress}`. -/
def activeCalls (db : List ConsultationRequest) (prof : Nat) : Nat :=
  (db.filter (fun r =>
    r.professional = some prof ∧
      (r.status = .matched ∨ r.status = .accepted ∨ r.status = .inProgress))).length

/-- The attribute access `stats.response_time` in `_calculate_score` step 4
(categories/views.py, line 135). `dashboard.ProfessionalStat` defines
`response_time_minutes` but no `response_time` attribute, so this access raises
`AttributeError` for every stats row; the enclosing bare `except:` catches it. -/
def statResponseTime (_stats : ProfessionalStat) : Except String ℚ :=
  .error "AttributeError: ProfessionalStat object has no attribute response_time"

/-- Step 4 of `_calculate_score` (categories/views.py, lines 130-146): inside a
`try`, fetch the professional's `ProfessionalStat` row (`DoesNotExist` when
absent), test `if stats and stats.response_time:` and apply the threshold
table; any exception in the block — including the `AttributeError` from
`stats.response_time` — falls to the bare `except:` and leaves the bonus 0. -/
def responseBonus (stats : Option ProfessionalStat) : ℚ :=
  match stats with
  | none => 0
  | some s =>
    match statResponseTime s with
    | .error _ => 0
    | .ok rt =>
      if rt ≠ 0 then
        if rt < 60 then 20
        else if rt < 180 then 15
        else if rt < 300 then 10
        else 0
      else 0

/-- Environment for scoring and matching: the professional roster, the
consultation table (for the load query), the stats table, and the value drawn
by `random.uniform(0, 10)` for each professional (stubbed as an input). -/
structure MatchEnv where
  professionals : List ProfessionalProfile
  consultations : List ConsultationRequest
  stats : Nat → Option ProfessionalStat
  jitter : Nat → ℚ

/-- `SimpleAIMatcher._calculate_score` (categories/views.py, lines 96-156):
rating component, experience component, load penalty, response-time bonus and
random factor, with the result clamped by `max(0, score)`. -/
def calculateScore (env : MatchEnv) (professional : ProfessionalProfile) : ℚ :=
  let score : ℚ :=
    professional.rating * 8
      + min ((professional.experience_years : ℚ) * 3) 30
      + loadPenalty (activeCalls env.consultations professional.id)
      + responseBonus (env.stats professional.id)
      + env.jitter professional.id
  max 0 score

/-- Eligibility filter of `find_best_professional` (categories/views.py,
lines 34-38): `service_categories=category`, `is_online=True`,
`is_verified=True`. -/
def eligibleProfessionals (env : MatchEnv) (category : ServiceCategory) :
    List ProfessionalProfile :=
  env.professionals.filter (fun p =>
    category.id ∈ p.service_categories ∧ p.is_online ∧ p.is_verified)

/-- Insertion step of a stable descending sort on score: the new element goes
after every earlier element with a strictly greater score and before the first
element with a score no greater (exactly the order Python's stable
`list.sort(key=..., reverse=True)` produces). -/
def insertDesc (a : ProfessionalProfile × ℚ) :
    List (ProfessionalProfile × ℚ) → List (ProfessionalProfile × ℚ)
  | [] => [a]
  | b :: bs => if b.2 > a.2 then b :: insertDesc a bs else a :: b :: bs

/-- Stable descending sort by score, modelling
`scored.sort(key=lambda x: x[1], reverse=True)`. -/
def sortDesc : List (ProfessionalProfile × ℚ) → List (ProfessionalProfile × ℚ)
  | [] => []
  | a :: as => insertDesc a (sortDesc as)

/-- `SimpleAIMatcher.find_best_professional` (categories/views.py,
lines 26-94): filter the roster, return `None` on an empty queryset, otherwise
score every candidate, sort by descending score and return the head. -/
def find_best_professional (env : MatchEnv) (category : ServiceCategory) :
    Option ProfessionalProfile :=
  let professionals := eligibleProfessionals env category
  if professionals = [] then
    none
  else
    let scored := professionals.map (fun p => (p, calculateScore env p))
    (sortDesc scored).head?.map Prod.fst

/-- Reference recursion computing the first element of maximal score in
iteration order (kept strictly as a proof vehicle for the head of the stable
descending sort). -/
def firstArgmax (f : ProfessionalProfile → ℚ) :
    List ProfessionalProfile → Option ProfessionalProfile
  | [] => none
  | a :: as =>
    match firstArgmax f as with
    | none => some a
    | some b => if f b > f a then some b else some a

/-! ### Consultation lifecycle endpoints (`ConsultationRequestViewSet`) -/

/-- User roles relevant to the endpoint permission checks. -/
inductive Role where
  | client
  | professional
  | admin
deriving DecidableEq, Repr

/-- The requesting user: id, role, optional professional profile id
(`user.professional_profile` raises `DoesNotExist` when absent), staff flag. -/
structure User where
  id : Nat
  role : Role
  professional_profile : Option Nat
  is_staff : Bool
deriving DecidableEq, Repr

/-- Error responses returned by the consultation endpoints. Each constructor
mirrors one `Response({'error': ...}, status=4xx)` branch of the source. -/
inductive ApiError where
  /-- 403 "Only professionals can accept consultations". -/
  | onlyProfessionalsAccept
  /-- 403 "You are not assigned to this consultation". -/
  | notAssignedAccept
  /-- 403 "You can only cancel your own consultations". -/
  | cancelNotOwner
  /-- 403 "Only professionals can complete consultations". -/
  | onlyProfessionalsComplete
  /-- 403 "Only assigned professional can mark as completed". -/
  | notAssignedComplete
deriving DecidableEq, Repr

/-- The actor checks and the persisted write of
`ConsultationRequestViewSet.accept` (categories/views.py, lines 272-296):
after the two actor checks (requester has a professional profile and is the
assigned professional) it unconditionally sets `status='accepted'`, stamps
`accepted_at`, and saves; the current status is never inspected. Here `.ok`
means "the save was reached and persisted", NOT that the endpoint responds
with success: the handler next executes `from dashboard.models import
Notification` (line 299), which raises `ImportError` on every run —
`dashboard.models` defines `ProfessionalNotification` but no `Notification` —
so the source's success response is unreachable. The full response channel,
including that crash, is modelled by `acceptEndpoint` below. -/
def acceptAction (user : User) (c : ConsultationRequest) (now : Int) :
    Except ApiError ConsultationRequest :=
  match user.professional_profile with
  | none => .error .onlyProfessionalsAccept
  | some prof =>
    if c.professional ≠ some prof then
      .error .notAssignedAccept
    else
      .ok (save (some c) { c with status := .accepted, accepted_at := some now } now)

/-- `ConsultationRequestViewSet.cancel` (categories/views.py, lines 315-342):
a client may only cancel their own consultation; any other requester passes
the check. The status is then set to `cancelled` unconditionally, with
`cancelled_at` stamped, and the row saved. Unlike accept and complete this
handler has no failing post-save statement (the refund loop over
`consultation.payments` is a `pass`), so `.ok` here does coincide with the
success response. -/
def cancelAction (user : User) (c : ConsultationRequest) (now : Int) :
    Except ApiError ConsultationRequest :=
  if user.role = .client ∧ c.client ≠ user.id then
    .error .cancelNotOwner
  else
    .ok (save (some c) { c with status := .cancelled, cancelled_at := some now } now)

/-- The actor checks and the persisted write of
`ConsultationRequestViewSet.complete` (categories/views.py, lines 344-366):
actor checks only (professional profile exists and is the assigned one), then
`status='completed'` with `completed_at` stamped and saved. As with accept,
`.ok` means "the save was reached and persisted": the handler then calls
`stats.update_stats(consultation)` (line 373) on a `ProfessionalStat`, which
defines no `update_stats` method, so an `AttributeError` is raised on every
run and the source's success response is unreachable. The full response
channel is modelled by `completeEndpoint` below. -/
def completeAction (user : User) (c : ConsultationRequest) (now : Int) :
    Except ApiError ConsultationRequest :=
  match user.professional_profile with
  | none => .error .onlyProfessionalsComplete
  | some prof =>
    if c.professional ≠ some prof then
      .error .notAssignedComplete
    else
      .ok (save (some c) { c with status := .completed, completed_at := some now } now)

/-- The statement `from dashboard.models import Notification` executed inside
the accept handler and inside `match_professional` (categories/views.py,
lines 299 and 420): `dashboard.models` defines `ProfessionalNotification` but
no class named `Notification`, so this import raises `ImportError` on every
execution. -/
def notificationImport : Except String Unit :=
  .error "ImportError: cannot import name Notification from dashboard.models"

/-- The call `stats.update_stats(consultation)` in the complete handler
(categories/views.py, line 373): `dashboard.ProfessionalStat` defines no
`update_stats` method, so the attribute lookup raises `AttributeError` on
every execution, whatever the stats row. -/
def professionalStatUpdateStats : Except String Unit :=
  .error "AttributeError: ProfessionalStat object has no attribute update_stats"

/-- The response a lifecycle endpoint sends to its caller. -/
inductive EndpointResponse where
  /-- One of the 403 actor-guard rejections. -/
  | forbidden (e : ApiError)
  /-- 500: an unhandled exception escaped the handler after the save. -/
  | serverError
  /-- 200 success payload. -/
  | success
deriving DecidableEq, Repr

/-- Observable outcome of a lifecycle endpoint: the response the caller
receives and the consultation row as persisted in the database when the
handler exits (normally or by an unhandled exception). -/
structure EndpointOutcome where
  response : EndpointResponse
  db : ConsultationRequest
deriving DecidableEq, Repr

/-- The full accept endpoint including its response channel: the actor checks
and the save (`acceptAction`), followed by the `Notification` import, which
always raises — the transition persists but the caller gets the unhandled
`ImportError` (HTTP 500), never the success payload. -/
def acceptEndpoint (user : User) (c : ConsultationRequest) (now : Int) :
    EndpointOutcome :=
  match acceptAction user c now with
  | .error e => ⟨.forbidden e, c⟩
  | .ok saved =>
    match notificationImport with
    | .error _ => ⟨.serverError, saved⟩
    | .ok _ => ⟨.success, saved⟩

/-- The full cancel endpoint: actor check and save (`cancelAction`); the
remaining handler body (the `pass` refund loop) cannot fail, so success is
returned with the row persisted as cancelled. -/
def cancelEndpoint (user : User) (c : ConsultationRequest) (now : Int) :
    EndpointOutcome :=
  match cancelAction user c now with
  | .error e => ⟨.forbidden e, c⟩
  | .ok saved => ⟨.success, saved⟩

/-- The full complete endpoint: actor checks and save (`completeAction`),
followed by `stats.update_stats(...)`, which always raises — the transition
persists but the caller gets the unhandled `AttributeError` (HTTP 500). -/
def completeEndpoint (user : User) (c : ConsultationRequest) (now : Int) :
    EndpointOutcome :=
  match completeAction user c now with
  | .error e => ⟨.forbidden e, c⟩
  | .ok saved =>
    match professionalStatUpdateStats with
    | .error _ => ⟨.serverError, saved⟩
    | .ok _ => ⟨.success, saved⟩

/-! ### Matching orchestration -/

/-- Result of `ConsultationRequestViewSet.match_professional`: the boolean the
method returns, plus the updated consultation row and offer table. -/
structure MatchOutcome where
  matched : Bool
  consultation : ConsultationRequest
  offers : List IncomingCall
deriving DecidableEq, Repr

/-- `ConsultationRequestViewSet.match_professional` (categories/views.py,
lines 380-441). On a winner: set professional, `status='matched'`, stamp
`matched_at`, copy the winner's hourly rate, `save()` (which recomputes the
pricing from the new rate), and create an `IncomingCall` with `status='pending'`
and `expires_at = now + 5 minutes`; `estimated_earnings` is
`total_amount if total_amount else 0`, which equals `total_amount` either way.
On no winner: log and return `False` without touching any row (this branch
runs no failing statement). On a winner, after the `IncomingCall` is created
the source executes the always-failing `Notification` import
(`notificationImport`, line 420), so the literal `return True` — and with it
the match action's success response — is unreachable at runtime; this
definition models the state persisted before that crash together with the
return value the code text would produce, which is how the theorems about it
are to be read. -/
def match_professional (env : MatchEnv) (c : ConsultationRequest)
    (offers : List IncomingCall) (now : Int) : MatchOutcome :=
  match find_best_professional env c.category with
  | none => ⟨false, c, offers⟩
  | some best =>
    let c1 : ConsultationRequest :=
      { c with
          professional := some best.id
          status := .matched
          matched_at := some now
          hourly_rate := best.hourly_rate }
    let c2 := save (some c) c1 now
    let offer : IncomingCall :=
      { professional := best.id
        consultation_id := c.id
        duration := c2.duration_minutes
        estimated_earnings := if c2.total_amount ≠ 0 then c2.total_amount else 0
        status := .pending
        expires_at := now + 5 * 60
        responded_at := none
        accepted_at := none
        rejected_at := none }
    ⟨true, c2, offers ++ [offer]⟩

/-- Responses of the manual `match` action. -/
inductive MatchResponse where
  /-- 400 "Consultation already has a professional assigned". -/
  | alreadyAssigned
  /-- 200 "Professional matched successfully". -/
  | success
  /-- 404 "No available professionals found". -/
  | noneAvailable
deriving DecidableEq, Repr

/-- `ConsultationRequestViewSet.match` (categories/views.py, lines 243-270):
reject with a 400 when `consultation.professional` is already set (no state is
touched), otherwise run `match_professional` and report its outcome. -/
def matchAction (env : MatchEnv) (c : ConsultationRequest)
    (offers : List IncomingCall) (now : Int) :
    MatchResponse × ConsultationRequest × List IncomingCall :=
  if c.professional ≠ none then
    (.alreadyAssigned, c, offers)
  else
    let o := match_professional env c offers now
    (if o.matched then .success else .noneAvailable, o.consultation, o.offers)

/-- The `ConsultationRequest.objects.create(...)` call of
`QuickConsultationView.post` (categories/views.py, lines 493-502): a fresh row
with `status='pending'`, `hourly_rate=0`, `duration_minutes=category.min_duration`
and `total_amount=0`; `create` invokes the custom `save` on a row with no
primary key. -/
def quickConsultationCreate (user : Nat) (category : ServiceCategory)
    (cid : Nat) (now : Int) : ConsultationRequest :=
  save none
    { id := cid
      client := user
      professional := none
      category := category
      status := .pending
      duration_minutes := category.min_duration
      hourly_rate := 0
      total_amount := 0
      platform_fee := 0
      professional_earnings := 0
      matched_at := none
      accepted_at := none
      started_at := none
      completed_at := none
      cancelled_at := none
      match_attempts := 0 } now

/-! ### Call-offer endpoints (`IncomingCallViewSet` in dashboard/views.py) -/

/-- Responses of `IncomingCallViewSet.accept`. -/
inductive CallAcceptResult where
  /-- 400 "Call is no longer available" (wrong state). -/
  | noLongerAvailable
  /-- 400 "Call has expired" (too late). -/
  | hasExpired
  /-- 200 "Call accepted successfully". -/
  | success
deriving DecidableEq, Repr

/-- `IncomingCallViewSet.accept` (dashboard/views.py, lines 192-241): reject
unless the status is `pending` or `ringing`; then, if `now > expires_at`, mark
the offer `expired` and reject with the expiry message; otherwise mark it
`accepted` and stamp `accepted_at`/`responded_at`. The `CallHistory` side
effect is out of the modelled state; no `ConsultationRequest` is touched. -/
def incomingCallAccept (call : IncomingCall) (now : Int) :
    CallAcceptResult × IncomingCall :=
  if ¬(call.status = .pending ∨ call.status = .ringing) then
    (.noLongerAvailable, call)
  else if call.expires_at < now then
    (.hasExpired, { call with status := .expired })
  else
    (.success,
      { call with
          status := .accepted
          accepted_at := some now
          responded_at := some now })

/-- `IncomingCallViewSet.update_status` (dashboard/views.py, lines 273-301) for
a `new_status` that passed the `STATUS_CHOICES` validity check (our
`OfferStatus` type makes that check total): set the status, and when it is
`ringing` also reset `expires_at` to `now + 60` seconds. -/
def incomingCallUpdateStatus (call : IncomingCall) (new_status : OfferStatus)
    (now : Int) : IncomingCall :=
  let c1 : IncomingCall := { call with status := new_status }
  if new_status = .ringing then { c1 with expires_at := now + 60 } else c1

/-! ### Frame lemmas for the two halves of `save` -/

theorem savePricing_frame (r : ConsultationRequest) :
    (savePricing r).id = r.id ∧
    (savePricing r).client = r.client ∧
    (savePricing r).professional = r.professional ∧
    (savePricing r).category = r.category ∧
    (savePricing r).status = r.status ∧
    (savePricing r).duration_minutes = r.duration_minutes ∧
    (savePricing r).hourly_rate = r.hourly_rate ∧
    (savePricing r).matched_at = r.matched_at ∧
    (savePricing r).accepted_at = r.accepted_at ∧
    (savePricing r).started_at = r.started_at ∧
    (savePricing r).completed_at = r.completed_at ∧
    (savePricing r).cancelled_at = r.cancelled_at ∧
    (savePricing r).match_attempts = r.match_attempts := by
  unfold savePricing
  split <;> simp

theorem saveTimestamps_frame (old : Option ConsultationRequest)
    (r : ConsultationRequest) (now : Int) :
    (saveTimestamps old r now).id = r.id ∧
    (saveTimestamps old r now).client = r.client ∧
    (saveTimestamps old r now).professional = r.professional ∧
    (saveTimestamps old r now).category = r.category ∧
    (saveTimestamps old r now).status = r.status ∧
    (saveTimestamps old r now).duration_minutes = r.duration_minutes ∧
    (saveTimestamps old r now).hourly_rate = r.hourly_rate ∧
    (saveTimestamps old r now).total_amount = r.total_amount ∧
    (saveTimestamps old r now).platform_fee = r.platform_fee ∧
    (saveTimestamps old r now).professional_earnings = r.professional_earnings ∧
    (saveTimestamps old r now).match_attempts = r.match_attempts := by
  unfold saveTimestamps
  rcases old with _ | o
  · simp
  · dsimp only
    split
    · split <;> simp
    · simp

/-! ### Concrete demonstration data (used by witnesses and counterexamples) -/

/-- A demonstration category: "Legal", commission 20 percent. -/
def demoCategory : ServiceCategory :=
  { id := 7
    name := "Legal"
    active := true
    base_price := 1000
    commission_rate := 20
    min_duration := 15
    max_duration := 240 }

/-- A demonstration consultation request: pending, 30 minutes at rate 1500. -/
def demoRequest : ConsultationRequest :=
  { id := 1
    client := 2
    professional := none
    category := demoCategory
    status := .pending
    duration_minutes := 30
    hourly_rate := 1500
    total_amount := 0
    platform_fee := 0
    professional_earnings := 0
    matched_at := none
    accepted_at := none
    started_at := none
    completed_at := none
    cancelled_at := none
    match_attempts := 0 }

/-! ### C1 -/

/-- C1: for every `ConsultationRequest` whose `duration_minutes` and
`hourly_rate` are both non-zero, saving recomputes
`total_amount = hourly_rate * (duration_minutes / 60)`,
`platform_fee = total_amount * commission_rate / 100` and
`professional_earnings = total_amount - platform_fee`, so
`platform_fee + professional_earnings = total_amount` holds after every save. -/
theorem save_recomputes_pricing (old : Option ConsultationRequest)
    (r : ConsultationRequest) (now : Int)
    (hd : r.duration_minutes ≠ 0) (hr : r.hourly_rate ≠ 0) :
    (save old r now).total_amount
        = r.hourly_rate * ((r.duration_minutes : ℚ) / 60) ∧
    (save old r now).platform_fee
        = (save old r now).total_amount * r.category.commission_rate / 100 ∧
    (save old r now).professional_earnings
        = (save old r now).total_amount - (save old r now).platform_fee ∧
    (save old r now).platform_fee + (save old r now).professional_earnings
        = (save old r now).total_amount := by
  unfold save
  obtain ⟨-, -, -, -, -, -, -, h_total, h_fee, h_earn, -⟩ :=
    saveTimestamps_frame old (savePricing r) now
  rw [h_total, h_fee, h_earn]
  unfold savePricing
  rw [if_pos ⟨hd, hr⟩]
  refine ⟨by ring, by ring, by ring, by ring⟩

/-- Witness for C1 at a concrete request: 30 minutes at rate 1500 with a
20 percent commission gives total 750, fee 150, earnings 600. -/
theorem save_recomputes_pricing_witness :
    demoRequest.duration_minutes ≠ 0 ∧ demoRequest.hourly_rate ≠ 0 ∧
    ((save none demoRequest 0).total_amount
        = demoRequest.hourly_rate * ((demoRequest.duration_minutes : ℚ) / 60) ∧
     (save none demoRequest 0).platform_fee
        = (save none demoRequest 0).total_amount
            * demoRequest.category.commission_rate / 100 ∧
     (save none demoRequest 0).professional_earnings
        = (save none demoRequest 0).total_amount
            - (save none demoRequest 0).platform_fee ∧
     (save none demoRequest 0).platform_fee
          + (save none demoRequest 0).professional_earnings
        = (save none demoRequest 0).total_amount) :=
  ⟨by decide, by decide,
    save_recomputes_pricing none demoRequest 0 (by decide) (by decide)⟩

/-! ### C10 -/

/-- A demonstration professional: eligible for `demoCategory`, rate 1500. -/
def demoProfessional : ProfessionalProfile :=
  { id := 3
    service_categories := [7]
    specialty := "Legal"
    hourly_rate := 1500
    rating := 5
    experience_years := 10
    is_verified := true
    is_online := true }

/-- A demonstration matching environment with exactly one professional,
no existing consultations, no stats rows, and the random factor stubbed to 0. -/
def demoEnv : MatchEnv :=
  { professionals := [demoProfessional]
    consultations := []
    stats := fun _ => none
    jitter := fun _ => 0 }

/-- A request with zero hourly rate but non-trivial stored pricing fields. -/
def demoZeroRateRequest : ConsultationRequest :=
  { demoRequest with
      hourly_rate := 0
      total_amount := 3
      platform_fee := 1
      professional_earnings := 2 }

/-- The row created by `QuickConsultationView.post` for the demo client. -/
def demoQuick : ConsultationRequest :=
  quickConsultationCreate 2 demoCategory 4 0

/-- C10: when `hourly_rate` or `duration_minutes` is zero at save time, saving
leaves `total_amount`, `platform_fee` and `professional_earnings` exactly
unchanged; a quick consultation is created with zero rate and zero pricing
fields, and a successful match stores the winning professional's hourly rate. -/
theorem save_skips_pricing_when_unset :
    (∀ (old : Option ConsultationRequest) (r : ConsultationRequest) (now : Int),
      r.hourly_rate = 0 ∨ r.duration_minutes = 0 →
        (save old r now).total_amount = r.total_amount ∧
        (save old r now).platform_fee = r.platform_fee ∧
        (save old r now).professional_earnings = r.professional_earnings ∧
        (save old r now).hourly_rate = r.hourly_rate) ∧
    (∀ (u : Nat) (cat : ServiceCategory) (cid : Nat) (now : Int),
      (quickConsultationCreate u cat cid now).hourly_rate = 0 ∧
      (quickConsultationCreate u cat cid now).total_amount = 0 ∧
      (quickConsultationCreate u cat cid now).platform_fee = 0 ∧
      (quickConsultationCreate u cat cid now).professional_earnings = 0 ∧
      (quickConsultationCreate u cat cid now).status = .pending) ∧
    (∀ (env : MatchEnv) (c : ConsultationRequest) (offers : List IncomingCall)
        (now : Int) (w : ProfessionalProfile),
      find_best_professional env c.category = some w →
        (match_professional env c offers now).consultation.hourly_rate
          = w.hourly_rate) := by
  refine ⟨?_, ?_, ?_⟩
  · intro old r now h
    unfold save
    obtain ⟨-, -, -, -, -, -, h_rate, h_total, h_fee, h_earn, -⟩ :=
      saveTimestamps_frame old (savePricing r) now
    rw [h_total, h_fee, h_earn, h_rate]
    unfold savePricing
    rw [if_neg (by rcases h with h | h <;> simp [h])]
    exact ⟨rfl, rfl, rfl, rfl⟩
  · intro u cat cid now
    simp [quickConsultationCreate, save, saveTimestamps, savePricing]
  · intro env c offers now w h
    unfold match_professional
    rw [h]
    dsimp only
    unfold save
    obtain ⟨-, -, -, -, -, -, h_rate, -⟩ :=
      saveTimestamps_frame (some c)
        (savePricing { c with
          professional := some w.id
          status := .matched
          matched_at := some now
          hourly_rate := w.hourly_rate }) now
    rw [h_rate]
    obtain ⟨-, -, -, -, -, -, h_rate2, -⟩ :=
      savePricing_frame { c with
        professional := some w.id
        status := .matched
        matched_at := some now
        hourly_rate := w.hourly_rate }
    rw [h_rate2]

/-- Witness for C10: the zero-rate demo request keeps its pricing fields over a
save, the quick consultation is created with zero pricing, and matching it in
the demo environment stores the professional's rate 1500. -/
theorem save_skips_pricing_when_unset_witness :
    (demoZeroRateRequest.hourly_rate = 0 ∨ demoZeroRateRequest.duration_minutes = 0) ∧
    ((save none demoZeroRateRequest 5).total_amount = demoZeroRateRequest.total_amount ∧
     (save none demoZeroRateRequest 5).platform_fee = demoZeroRateRequest.platform_fee ∧
     (save none demoZeroRateRequest 5).professional_earnings
        = demoZeroRateRequest.professional_earnings ∧
     (save none demoZeroRateRequest 5).hourly_rate = demoZeroRateRequest.hourly_rate) ∧
    ((quickConsultationCreate 2 demoCategory 4 0).total_amount = 0) ∧
    (find_best_professional demoEnv demoQuick.category = some demoProfessional) ∧
    (match_professional demoEnv demoQuick [] 9).consultation.hourly_rate
        = demoProfessional.hourly_rate :=
  ⟨Or.inl (by decide),
    save_skips_pricing_when_unset.1 none demoZeroRateRequest 5 (Or.inl (by decide)),
    (save_skips_pricing_when_unset.2.1 2 demoCategory 4 0).2.1,
    by decide,
    save_skips_pricing_when_unset.2.2 demoEnv demoQuick [] 9 demoProfessional
      (by decide)⟩

/-! ### C3 -/

/-- An environment whose roster has no professional eligible for the demo
category: the only professional is offline. -/
def emptyRosterEnv : MatchEnv :=
  { professionals := [{ demoProfessional with is_online := false }]
    consultations := []
    stats := fun _ => none
    jitter := fun _ => 0 }

/-- C3 counterexample: with no eligible professional, `match_professional`
returns unmatched and leaves the request pending, but `match_attempts` is NOT
incremented — it stays at its prior value 0 instead of becoming 1. -/
theorem match_attempts_not_incremented_cex :
    (match_professional emptyRosterEnv demoRequest [] 5).matched = false ∧
    (match_professional emptyRosterEnv demoRequest [] 5).consultation.status
        = .pending ∧
    demoRequest.match_attempts = 0 ∧
    (match_professional emptyRosterEnv demoRequest [] 5).consultation.match_attempts
        = 0 ∧
    (match_professional emptyRosterEnv demoRequest [] 5).consultation.match_attempts
        ≠ demoRequest.match_attempts + 1 := by
  refine ⟨by decide, by decide, by decide, by decide, by decide⟩

/-- C3 amended: when the category has no eligible professional,
`match_professional` returns unmatched and leaves the request completely
unchanged — still pending if it was pending, and with `match_attempts` exactly
as before (the counter is never incremented anywhere in the code); the offer
table is also untouched. -/
theorem match_no_candidates_noop (env : MatchEnv) (c : ConsultationRequest)
    (offers : List IncomingCall) (now : Int)
    (h : eligibleProfessionals env c.category = []) :
    (match_professional env c offers now).matched = false ∧
    (match_professional env c offers now).consultation = c ∧
    (match_professional env c offers now).offers = offers ∧
    (match_professional env c offers now).consultation.match_attempts
        = c.match_attempts ∧
    (c.status = .pending →
      (match_professional env c offers now).consultation.status = .pending) := by
  have hbest : find_best_professional env c.category = none := by
    unfold find_best_professional
    rw [h]
    simp
  unfold match_professional
  rw [hbest]
  exact ⟨rfl, rfl, rfl, rfl, fun hp => hp⟩

/-- Witness for C3 at the offline-roster environment: the eligibility filter is
empty and the no-op conclusion holds for the demo request. -/
theorem match_no_candidates_noop_witness :
    eligibleProfessionals emptyRosterEnv demoRequest.category = [] ∧
    ((match_professional emptyRosterEnv demoRequest [] 5).matched = false ∧
     (match_professional emptyRosterEnv demoRequest [] 5).consultation = demoRequest ∧
     (match_professional emptyRosterEnv demoRequest [] 5).offers = [] ∧
     (match_professional emptyRosterEnv demoRequest [] 5).consultation.match_attempts
        = demoRequest.match_attempts ∧
     (demoRequest.status = .pending →
       (match_professional emptyRosterEnv demoRequest [] 5).consultation.status
          = .pending)) :=
  ⟨by decide, match_no_candidates_noop emptyRosterEnv demoRequest [] 5 (by decide)⟩

/-! ### Stamp lemmas for `save` after an endpoint sets the status -/

theorem save_stamps_accepted (old c1 : ConsultationRequest) (now : Int)
    (hs : c1.status = .accepted) (ha : c1.accepted_at = some now) :
    (save (some old) c1 now).accepted_at = some now ∧
    (save (some old) c1 now).status = .accepted := by
  obtain ⟨-, -, -, -, hps, -, -, -, hpa, -, -, -, -⟩ := savePricing_frame c1
  have hstat : (savePricing c1).status = Status.accepted := hps.trans hs
  unfold save saveTimestamps
  dsimp only
  by_cases h : old.status = (savePricing c1).status
  · rw [if_neg (not_not_intro h)]
    exact ⟨hpa.trans ha, hstat⟩
  · rw [if_pos h, hstat]
    simp [hpa.trans ha, hstat]

theorem save_stamps_cancelled (old c1 : ConsultationRequest) (now : Int)
    (hs : c1.status = .cancelled) (ha : c1.cancelled_at = some now) :
    (save (some old) c1 now).cancelled_at = some now ∧
    (save (some old) c1 now).status = .cancelled := by
  obtain ⟨-, -, -, -, hps, -, -, -, -, -, -, hpa, -⟩ := savePricing_frame c1
  have hstat : (savePricing c1).status = Status.cancelled := hps.trans hs
  unfold save saveTimestamps
  dsimp only
  by_cases h : old.status = (savePricing c1).status
  · rw [if_neg (not_not_intro h)]
    exact ⟨hpa.trans ha, hstat⟩
  · rw [if_pos h, hstat]
    simp [hpa.trans ha, hstat]

theorem save_stamps_completed (old c1 : ConsultationRequest) (now : Int)
    (hs : c1.status = .completed) (ha : c1.completed_at = some now) :
    (save (some old) c1 now).completed_at = some now ∧
    (save (some old) c1 now).status = .completed := by
  obtain ⟨-, -, -, -, hps, -, -, -, -, -, hpa, -, -⟩ := savePricing_frame c1
  have hstat : (savePricing c1).status = Status.completed := hps.trans hs
  unfold save saveTimestamps
  dsimp only
  by_cases h : old.status = (savePricing c1).status
  · rw [if_neg (not_not_intro h)]
    exact ⟨hpa.trans ha, hstat⟩
  · rw [if_pos h, hstat]
    simp [hpa.trans ha, hstat]

/-! ### C2 -/

/-- A consultation that is already completed, assigned to professional 3. -/
def completedRequest : ConsultationRequest :=
  { demoRequest with
      status := .completed
      professional := some 3
      hourly_rate := 0
      accepted_at := some 8
      completed_at := some 10 }

/-- The user owning professional profile 3. -/
def professionalUser : User :=
  { id := 9, role := .professional, professional_profile := some 3, is_staff := false }

/-- The client who owns the demo request. -/
def clientUser : User :=
  { id := 2, role := .client, professional_profile := none, is_staff := false }

/-- C2 counterexample: accepting an already-completed consultation is not
rejected as an invalid transition — the actor guard passes, the violating
transition is silently applied and persisted (status overwritten to
`accepted`), and the caller receives the unhandled-ImportError server
response, not an `InvalidTransition` error; the owning client likewise
cancels a completed consultation with a success response and the row
persisted as `cancelled`. -/
theorem invalid_transition_not_rejected_cex :
    completedRequest.status = .completed ∧
    (acceptEndpoint professionalUser completedRequest 100).db.status
        = .accepted ∧
    (acceptEndpoint professionalUser completedRequest 100).response
        = .serverError ∧
    (cancelEndpoint clientUser completedRequest 100).response = .success ∧
    (cancelEndpoint clientUser completedRequest 100).db.status = .cancelled := by
  exact ⟨rfl, rfl, rfl, rfl, rfl⟩

/-- C2 amended: the accept, cancel and complete endpoints enforce only their
actor guards (the requester must be the assigned professional for accept and
complete; a client may only cancel their own consultation) and never inspect
the current status. Whenever the actor guard passes the transition is applied
and PERSISTED from any current status — the status is overwritten and the
corresponding timestamp stamped. No `InvalidTransition` error naming the
current and requested states exists anywhere. The cancel endpoint then
returns success; the accept and complete endpoints always terminate in an
unhandled post-save exception (the failing `Notification` import, resp. the
missing `ProfessionalStat.update_stats`), so their callers see a server
error — never a transition rejection — while the violating transition
stands. -/
theorem lifecycle_actor_guards_only :
    (∀ (u : User) (c : ConsultationRequest) (now : Int) (prof : Nat),
      u.professional_profile = some prof → c.professional = some prof →
        (acceptEndpoint u c now).db.status = .accepted ∧
        (acceptEndpoint u c now).db.accepted_at = some now ∧
        (acceptEndpoint u c now).response = .serverError) ∧
    (∀ (u : User) (c : ConsultationRequest) (now : Int),
      ¬(u.role = .client ∧ c.client ≠ u.id) →
        (cancelEndpoint u c now).response = .success ∧
        (cancelEndpoint u c now).db.status = .cancelled ∧
        (cancelEndpoint u c now).db.cancelled_at = some now) ∧
    (∀ (u : User) (c : ConsultationRequest) (now : Int) (prof : Nat),
      u.professional_profile = some prof → c.professional = some prof →
        (completeEndpoint u c now).db.status = .completed ∧
        (completeEndpoint u c now).db.completed_at = some now ∧
        (completeEndpoint u c now).response = .serverError) := by
  refine ⟨?_, ?_, ?_⟩
  · intro u c now prof hu hc
    unfold acceptEndpoint acceptAction
    rw [hu]
    dsimp only
    rw [if_neg (by simp [hc])]
    obtain ⟨ha, hs⟩ :=
      save_stamps_accepted c { c with status := .accepted, accepted_at := some now }
        now rfl rfl
    exact ⟨hs, ha, rfl⟩
  · intro u c now h
    unfold cancelEndpoint cancelAction
    rw [if_neg h]
    obtain ⟨ha, hs⟩ :=
      save_stamps_cancelled c { c with status := .cancelled, cancelled_at := some now }
        now rfl rfl
    exact ⟨rfl, hs, ha⟩
  · intro u c now prof hu hc
    unfold completeEndpoint completeAction
    rw [hu]
    dsimp only
    rw [if_neg (by simp [hc])]
    obtain ⟨ha, hs⟩ :=
      save_stamps_completed c { c with status := .completed, completed_at := some now }
        now rfl rfl
    exact ⟨hs, ha, rfl⟩

/-- Witness for the amended C2 at the completed demo consultation: all three
endpoint conclusions hold with the actor hypotheses discharged. -/
theorem lifecycle_actor_guards_only_witness :
    professionalUser.professional_profile = some 3 ∧
    completedRequest.professional = some 3 ∧
    ¬(clientUser.role = .client ∧ completedRequest.client ≠ clientUser.id) ∧
    ((acceptEndpoint professionalUser completedRequest 100).db.status
        = .accepted ∧
      (acceptEndpoint professionalUser completedRequest 100).db.accepted_at
        = some 100 ∧
      (acceptEndpoint professionalUser completedRequest 100).response
        = .serverError) ∧
    ((cancelEndpoint clientUser completedRequest 100).response = .success ∧
      (cancelEndpoint clientUser completedRequest 100).db.status = .cancelled ∧
      (cancelEndpoint clientUser completedRequest 100).db.cancelled_at
        = some 100) ∧
    ((completeEndpoint professionalUser completedRequest 100).db.status
        = .completed ∧
      (completeEndpoint professionalUser completedRequest 100).db.completed_at
        = some 100 ∧
      (completeEndpoint professionalUser completedRequest 100).response
        = .serverError) :=
  ⟨rfl, rfl, by decide,
    lifecycle_actor_guards_only.1 professionalUser completedRequest 100 3 rfl rfl,
    lifecycle_actor_guards_only.2.1 clientUser completedRequest 100 (by decide),
    lifecycle_actor_guards_only.2.2 professionalUser completedRequest 100 3 rfl rfl⟩

/-! ### C5 -/

/-- A matched consultation assigned to professional 3. -/
def matchedRequest : ConsultationRequest :=
  { demoRequest with
      status := .matched
      professional := some 3
      hourly_rate := 0
      matched_at := some 1 }

/-- C5 counterexample: the assigned professional accepts at time 50 (setting
`accepted_at = 50`), then invokes accept again at time 80 while the status is
already `accepted`; the endpoint overwrites the already-set timestamp to 80,
so a status timestamp is written more than once. -/
theorem timestamp_overwritten_cex :
    (acceptAction professionalUser matchedRequest 50).map (fun r => r.accepted_at)
        = .ok (some 50) ∧
    ((acceptAction professionalUser matchedRequest 50).bind
        (fun c1 => acceptAction professionalUser c1 80)).map (fun r => r.accepted_at)
        = .ok (some 80) ∧
    ((acceptAction professionalUser matchedRequest 50).bind
        (fun c1 => acceptAction professionalUser c1 80)).map (fun r => r.accepted_at)
        ≠ .ok (some 50) := by
  refine ⟨rfl, rfl, ?_⟩
  intro h
  have h2 : (Except.ok (some 80) : Except ApiError (Option Int)) = .ok (some 50) := h
  injection h2 with h3
  exact absurd h3 (by decide)

/-- C5 amended: a save that leaves the status unchanged preserves all five
transition timestamps (so recomputing pricing alone never alters them), but a
save that CHANGES the status stamps the corresponding timestamp with the
current time, overwriting any previously set value on re-entry; moreover every
successful invocation of the accept endpoint re-stamps `accepted_at`, so the
timestamps are not write-once. -/
theorem timestamps_not_write_once :
    (∀ (old self : ConsultationRequest) (now : Int), old.status = self.status →
        (save (some old) self now).matched_at = self.matched_at ∧
        (save (some old) self now).accepted_at = self.accepted_at ∧
        (save (some old) self now).started_at = self.started_at ∧
        (save (some old) self now).completed_at = self.completed_at ∧
        (save (some old) self now).cancelled_at = self.cancelled_at) ∧
    (∀ (old self : ConsultationRequest) (now : Int),
      old.status ≠ self.status → self.status = .matched →
        (save (some old) self now).matched_at = some now) ∧
    (∀ (u : User) (c : ConsultationRequest) (now : Int) (prof : Nat),
      u.professional_profile = some prof → c.professional = some prof →
        ∃ r, acceptAction u c now = .ok r ∧ r.accepted_at = some now) := by
  refine ⟨?_, ?_, ?_⟩
  · intro old self now h
    obtain ⟨-, -, -, -, hps, -, -, hm, ha, hst, hco, hca, -⟩ := savePricing_frame self
    unfold save saveTimestamps
    dsimp only
    rw [if_neg (not_not_intro (h.trans hps.symm))]
    exact ⟨hm, ha, hst, hco, hca⟩
  · intro old self now h hm
    obtain ⟨-, -, -, -, hps, -, -, -, -⟩ := savePricing_frame self
    have hstat : (savePricing self).status = Status.matched := hps.trans hm
    unfold save saveTimestamps
    dsimp only
    rw [if_pos (fun heq => h (heq.trans hps)), hstat]
  · intro u c now prof hu hc
    unfold acceptAction
    rw [hu]
    dsimp only
    rw [if_neg (by simp [hc])]
    obtain ⟨ha, -⟩ :=
      save_stamps_accepted c { c with status := .accepted, accepted_at := some now }
        now rfl rfl
    exact ⟨_, rfl, ha⟩

/-- Witness for the amended C5: a same-status save of the matched demo request
preserves its timestamps; a pending-to-matched save at time 99 overwrites the
already-set `matched_at = 7`; and accepting the matched request stamps
`accepted_at` with the call time. -/
theorem timestamps_not_write_once_witness :
    (matchedRequest.status = matchedRequest.status ∧
      (save (some matchedRequest) matchedRequest 99).matched_at
          = matchedRequest.matched_at) ∧
    (demoRequest.status ≠ ({ demoRequest with
        status := .matched, matched_at := some 7 } : ConsultationRequest).status ∧
      (save (some demoRequest)
          { demoRequest with status := .matched, matched_at := some 7 } 99).matched_at
        = some 99) ∧
    (∃ r, acceptAction professionalUser matchedRequest 50 = .ok r ∧
      r.accepted_at = some 50) :=
  ⟨⟨rfl, ((timestamps_not_write_once.1 matchedRequest matchedRequest 99 rfl)).1⟩,
    ⟨by decide,
      timestamps_not_write_once.2.1 demoRequest
        { demoRequest with status := .matched, matched_at := some 7 } 99
        (by decide) rfl⟩,
    timestamps_not_write_once.2.2 professionalUser matchedRequest 50 3 rfl rfl⟩

/-! ### C4 -/

/-- Modelled from the spec: the response-time bonus table as the spec and the
claim state it — `<60s → +20, <180s → +15, <300s → +10, otherwise 0` — for
comparison with the code's `responseBonus`. -/
def claimedResponseBonus (rt : ℚ) : ℚ :=
  if rt < 60 then 20
  else if rt < 180 then 15
  else if rt < 300 then 10
  else 0

/-- Modelled from the spec: the full score formula as the claim states it
(rating, experience, load penalty, response-time bonus, jitter, floored at 0),
for comparison with the code's `calculateScore`. -/
def claimedScore (rating : ℚ) (experience_years : Nat) (load : Nat) (rt : ℚ)
    (jitter : ℚ) : ℚ :=
  max 0 (rating * 8 + min ((experience_years : ℚ) * 3) 30 + loadPenalty load
    + claimedResponseBonus rt + jitter)

/-- A matching environment in which the professional DOES have a
`ProfessionalStat` row (with a sub-minute recorded response time). -/
def statEnv : MatchEnv :=
  { demoEnv with stats := fun _ => some ⟨3, 5, 0⟩ }

/-- C4: the response-time bonus is dead code. `stats.response_time` raises
`AttributeError` (the model field is `response_time_minutes`) and the bare
`except:` swallows it, so the bonus is 0 for every professional regardless of
their stats; a professional with rating 5.0, 10 years of experience, zero
active load, a stats row present and jitter 0 therefore scores 70, where the
claim (and the code's own comments) require 90. -/
theorem response_bonus_dead_code :
    (∀ stats : Option ProfessionalStat, responseBonus stats = 0) ∧
    calculateScore statEnv demoProfessional = 70 ∧
    claimedScore demoProfessional.rating demoProfessional.experience_years 0 30 0
        = 90 ∧
    calculateScore statEnv demoProfessional
        ≠ claimedScore demoProfessional.rating demoProfessional.experience_years
            0 30 0 := by
  have hb : ∀ stats : Option ProfessionalStat, responseBonus stats = 0 := by
    intro stats
    cases stats <;> rfl
  have h70 : calculateScore statEnv demoProfessional = 70 := by
    unfold calculateScore
    rw [hb]
    norm_num [statEnv, demoEnv, demoProfessional, activeCalls, loadPenalty]
  have h90 : claimedScore demoProfessional.rating demoProfessional.experience_years
      0 30 0 = 90 := by
    unfold claimedScore claimedResponseBonus
    norm_num [demoProfessional, loadPenalty]
  refine ⟨hb, h70, h90, ?_⟩
  rw [h70, h90]
  norm_num

/-! ### C6 -/

/-- C6: an accept arriving strictly after `expires_at` never succeeds — the
offer is never marked accepted by it; when the offer was still `pending` or
`ringing` the caller gets the expiry-specific error (distinguishable from the
wrong-state error) and the offer itself is transitioned to `expired`; and
accept succeeds only from `pending` or `ringing` before expiry. -/
theorem offer_accept_expiry :
    (∀ (call : IncomingCall) (now : Int), call.expires_at < now →
        (incomingCallAccept call now).1 ≠ .success ∧
        ((incomingCallAccept call now).2.status = call.status ∨
          (incomingCallAccept call now).2.status = .expired) ∧
        ((incomingCallAccept call now).2.accepted_at = call.accepted_at) ∧
        ((call.status = .pending ∨ call.status = .ringing) →
          (incomingCallAccept call now).1 = .hasExpired ∧
          (incomingCallAccept call now).1 ≠ .noLongerAvailable ∧
          (incomingCallAccept call now).2.status = .expired)) ∧
    (∀ (call : IncomingCall) (now : Int),
      (incomingCallAccept call now).1 = .success →
        (call.status = .pending ∨ call.status = .ringing) ∧
        ¬ call.expires_at < now) := by
  constructor
  · intro call now h
    unfold incomingCallAccept
    by_cases hs : call.status = .pending ∨ call.status = .ringing
    · rw [if_neg (not_not_intro hs), if_pos h]
      exact ⟨by simp, Or.inr rfl, rfl, fun _ => ⟨rfl, by simp, rfl⟩⟩
    · rw [if_pos hs]
      exact ⟨by simp, Or.inl rfl, rfl, fun hp => absurd hp hs⟩
  · intro call now h
    unfold incomingCallAccept at h
    by_cases hs : call.status = .pending ∨ call.status = .ringing
    · rw [if_neg (not_not_intro hs)] at h
      by_cases hexp : call.expires_at < now
      · rw [if_pos hexp] at h
        exact absurd h (by simp)
      · exact ⟨hs, hexp⟩
    · rw [if_pos hs] at h
      exact absurd h (by simp)

/-- Witness for C6: a pending offer whose expiry 100 has passed at time 200 is
rejected with the expiry error and transitioned to `expired`; and a successful
accept at time 50 implies the pending status and non-expiry. -/
theorem offer_accept_expiry_witness :
    (100 : Int) < 200 ∧
    ((incomingCallAccept
        ⟨3, 1, 30, 750, .pending, 100, none, none, none⟩ 200).1 ≠ .success ∧
      ((incomingCallAccept
        ⟨3, 1, 30, 750, .pending, 100, none, none, none⟩ 200).2.status
          = OfferStatus.pending ∨
        (incomingCallAccept
          ⟨3, 1, 30, 750, .pending, 100, none, none, none⟩ 200).2.status
          = .expired) ∧
      ((incomingCallAccept
        ⟨3, 1, 30, 750, .pending, 100, none, none, none⟩ 200).2.accepted_at
          = none) ∧
      ((OfferStatus.pending = OfferStatus.pending ∨
          OfferStatus.pending = OfferStatus.ringing) →
        (incomingCallAccept
          ⟨3, 1, 30, 750, .pending, 100, none, none, none⟩ 200).1 = .hasExpired ∧
        (incomingCallAccept
          ⟨3, 1, 30, 750, .pending, 100, none, none, none⟩ 200).1
            ≠ .noLongerAvailable ∧
        (incomingCallAccept
          ⟨3, 1, 30, 750, .pending, 100, none, none, none⟩ 200).2.status
            = .expired)) :=
  ⟨by decide,
    offer_accept_expiry.1 ⟨3, 1, 30, 750, .pending, 100, none, none, none⟩ 200
      (by decide)⟩

/-! ### C9 -/

/-- C9: every successful match creates its `IncomingCall` offer with status
`pending` and `expires_at = now + 5 minutes`, and updating an offer's status to
`ringing` resets `expires_at` to `now + 60` seconds. -/
theorem offer_window :
    (∀ (env : MatchEnv) (c : ConsultationRequest) (offers : List IncomingCall)
        (now : Int),
      (match_professional env c offers now).matched = true →
        ∃ off, (match_professional env c offers now).offers = offers ++ [off] ∧
          off.status = .pending ∧ off.expires_at = now + 5 * 60) ∧
    (∀ (call : IncomingCall) (now : Int),
      (incomingCallUpdateStatus call .ringing now).status = .ringing ∧
      (incomingCallUpdateStatus call .ringing now).expires_at = now + 60) := by
  constructor
  · intro env c offers now h
    unfold match_professional at h ⊢
    cases hbest : find_best_professional env c.category with
    | none => rw [hbest] at h; exact absurd h (by simp)
    | some best => exact ⟨_, rfl, rfl, rfl⟩
  · intro call now
    unfold incomingCallUpdateStatus
    rw [if_pos rfl]
    exact ⟨rfl, rfl⟩

/-- Witness for C9: matching the demo request at time 9 succeeds and appends a
pending offer expiring at 309. -/
theorem offer_window_witness :
    (match_professional demoEnv demoRequest [] 9).matched = true ∧
    (∃ off, (match_professional demoEnv demoRequest [] 9).offers = [] ++ [off] ∧
      off.status = .pending ∧ off.expires_at = 9 + 5 * 60) :=
  ⟨by decide, offer_window.1 demoEnv demoRequest [] 9 (by decide)⟩

/-! ### C8 -/

/-- C8: the match endpoint on a consultation whose professional is already set
assigns nothing, creates no offer, leaves all state unchanged and reports the
already-assigned error; hence a successful match followed by a second match
invocation yields exactly one assigned professional and exactly one new
`CallOffer`. -/
theorem match_already_assigned_noop :
    (∀ (env : MatchEnv) (c : ConsultationRequest) (offers : List IncomingCall)
        (now : Int) (pid : Nat), c.professional = some pid →
        matchAction env c offers now = (.alreadyAssigned, c, offers)) ∧
    (∀ (env : MatchEnv) (c : ConsultationRequest) (offers : List IncomingCall)
        (now : Int), c.professional = none →
      (matchAction env c offers now).1 = .success →
        (∃ pid, (matchAction env c offers now).2.1.professional = some pid) ∧
        (matchAction env c offers now).2.2.length = offers.length + 1 ∧
        (∀ (env2 : MatchEnv) (now2 : Int),
          matchAction env2 (matchAction env c offers now).2.1
              (matchAction env c offers now).2.2 now2
            = (.alreadyAssigned, (matchAction env c offers now).2.1,
                (matchAction env c offers now).2.2))) := by
  have parta : ∀ (env : MatchEnv) (c : ConsultationRequest)
      (offers : List IncomingCall) (now : Int) (pid : Nat),
      c.professional = some pid →
      matchAction env c offers now = (.alreadyAssigned, c, offers) := by
    intro env c offers now pid h
    unfold matchAction
    rw [if_pos (by simp [h])]
  refine ⟨parta, ?_⟩
  intro env c offers now h hsucc
  have hmain : ∀ best, find_best_professional env c.category = some best →
      (matchAction env c offers now).2.1.professional = some best.id ∧
      (matchAction env c offers now).2.2.length = offers.length + 1 := by
    intro best hbest
    unfold matchAction
    rw [if_neg (not_not_intro h)]
    unfold match_professional
    rw [hbest]
    dsimp only
    constructor
    · obtain ⟨-, -, hp1, -⟩ :=
        saveTimestamps_frame (some c)
          (savePricing { c with
            professional := some best.id
            status := .matched
            matched_at := some now
            hourly_rate := best.hourly_rate }) now
      rw [show (save (some c) { c with
            professional := some best.id
            status := .matched
            matched_at := some now
            hourly_rate := best.hourly_rate } now) =
          saveTimestamps (some c) (savePricing { c with
            professional := some best.id
            status := .matched
            matched_at := some now
            hourly_rate := best.hourly_rate }) now from rfl, hp1]
      obtain ⟨-, -, hp2, -⟩ :=
        savePricing_frame { c with
          professional := some best.id
          status := .matched
          matched_at := some now
          hourly_rate := best.hourly_rate }
      rw [hp2]
    · simp
  cases hbest : find_best_professional env c.category with
  | none =>
    exfalso
    unfold matchAction at hsucc
    rw [if_neg (not_not_intro h)] at hsucc
    unfold match_professional at hsucc
    rw [hbest] at hsucc
    exact absurd hsucc (by simp)
  | some best =>
    obtain ⟨hp, hlen⟩ := hmain best hbest
    exact ⟨⟨best.id, hp⟩, hlen,
      fun env2 now2 => parta env2 _ _ now2 best.id hp⟩

/-- Witness for C8: matching the demo request succeeds, assigns professional 3,
creates exactly one offer, and a repeated invocation is the no-op error. -/
theorem match_already_assigned_noop_witness :
    demoRequest.professional = none ∧
    (matchAction demoEnv demoRequest [] 9).1 = .success ∧
    ((∃ pid, (matchAction demoEnv demoRequest [] 9).2.1.professional = some pid) ∧
     (matchAction demoEnv demoRequest [] 9).2.2.length = ([] : List IncomingCall).length + 1 ∧
     (∀ (env2 : MatchEnv) (now2 : Int),
       matchAction env2 (matchAction demoEnv demoRequest [] 9).2.1
           (matchAction demoEnv demoRequest [] 9).2.2 now2
         = (.alreadyAssigned, (matchAction demoEnv demoRequest [] 9).2.1,
             (matchAction demoEnv demoRequest [] 9).2.2))) :=
  ⟨rfl, by decide,
    match_already_assigned_noop.2 demoEnv demoRequest [] 9 rfl (by decide)⟩

/-! ### C7 -/

theorem insertDesc_head_cons (a b : ProfessionalProfile × ℚ)
    (bs : List (ProfessionalProfile × ℚ)) :
    (insertDesc a (b :: bs)).head? = some (if b.2 > a.2 then b else a) := by
  by_cases h : b.2 > a.2 <;> simp [insertDesc, h]

theorem sortDesc_head_map (f : ProfessionalProfile → ℚ)
    (l : List ProfessionalProfile) :
    (sortDesc (l.map (fun p => (p, f p)))).head?
      = (firstArgmax f l).map (fun p => (p, f p)) := by
  induction l with
  | nil => rfl
  | cons a as ih =>
    simp only [List.map_cons, sortDesc]
    cases has : firstArgmax f as with
    | none =>
      have h1 : (sortDesc (as.map (fun p => (p, f p)))).head? = none := by
        rw [ih, has]; rfl
      have h2 : sortDesc (as.map (fun p => (p, f p))) = [] :=
        List.head?_eq_none_iff.mp h1
      rw [h2]
      simp [insertDesc, firstArgmax, has]
    | some b =>
      have h1 : (sortDesc (as.map (fun p => (p, f p)))).head? = some (b, f b) := by
        rw [ih, has]; rfl
      obtain ⟨tl, h2⟩ : ∃ tl,
          sortDesc (as.map (fun p => (p, f p))) = (b, f b) :: tl := by
        cases hl : sortDesc (as.map fun p => (p, f p)) with
        | nil => rw [hl] at h1; exact absurd h1 (by simp)
        | cons x xs =>
          rw [hl] at h1
          simp only [List.head?_cons, Option.some.injEq] at h1
          exact ⟨xs, by rw [h1]⟩
      rw [h2, insertDesc_head_cons]
      by_cases h : f b > f a <;> simp [firstArgmax, has, h]

theorem firstArgmax_cons_ne_none (f : ProfessionalProfile → ℚ)
    (a : ProfessionalProfile) (as : List ProfessionalProfile) :
    firstArgmax f (a :: as) ≠ none := by
  simp only [firstArgmax]
  cases firstArgmax f as with
  | none => simp
  | some b =>
    dsimp only
    split <;> simp

theorem firstArgmax_eq_none (f : ProfessionalProfile → ℚ)
    (l : List ProfessionalProfile) : firstArgmax f l = none ↔ l = [] := by
  cases l with
  | nil => simp [firstArgmax]
  | cons a as =>
    exact ⟨fun h => absurd h (firstArgmax_cons_ne_none f a as),
      fun h => absurd h (List.cons_ne_nil a as)⟩

theorem firstArgmax_spec (f : ProfessionalProfile → ℚ) :
    ∀ (l : List ProfessionalProfile) (p : ProfessionalProfile),
      firstArgmax f l = some p →
        ∃ l₁ l₂, l = l₁ ++ p :: l₂ ∧ (∀ q ∈ l₁, f q < f p) ∧
          ∀ q ∈ l, f q ≤ f p := by
  intro l
  induction l with
  | nil => intro p h; exact absurd h (by simp [firstArgmax])
  | cons a as ih =>
    intro p h
    cases has : firstArgmax f as with
    | none =>
      have hnil : as = [] := (firstArgmax_eq_none f as).mp has
      subst hnil
      simp only [firstArgmax, Option.some.injEq] at h
      subst h
      exact ⟨[], [], rfl, by simp, by simp⟩
    | some b =>
      simp only [firstArgmax, has] at h
      by_cases hlt : f b > f a
      · rw [if_pos hlt] at h
        obtain rfl : b = p := Option.some.inj h
        obtain ⟨l₁, l₂, heq, hpre, hall⟩ := ih b has
        refine ⟨a :: l₁, l₂, by rw [heq]; rfl, ?_, ?_⟩
        · intro q hq
          rcases List.mem_cons.mp hq with rfl | hq
          · exact hlt
          · exact hpre q hq
        · intro q hq
          rcases List.mem_cons.mp hq with rfl | hq
          · exact le_of_lt hlt
          · exact hall q hq
      · rw [if_neg hlt] at h
        obtain rfl : a = p := Option.some.inj h
        obtain ⟨l₁, l₂, heq, hpre, hall⟩ := ih b has
        refine ⟨[], as, rfl, by simp, ?_⟩
        intro q hq
        rcases List.mem_cons.mp hq with rfl | hq
        · exact le_refl _
        · exact (hall q hq).trans (not_lt.mp hlt)

/-- C7: for a non-empty eligible-candidate list, `find_best_professional`
returns a professional whose score is maximal among all candidates, and on
exact score ties the first candidate in iteration order wins (every candidate
strictly before the winner has a strictly smaller score). -/
theorem find_best_first_maximal (env : MatchEnv) (category : ServiceCategory)
    (h : eligibleProfessionals env category ≠ []) :
    ∃ p l₁ l₂, find_best_professional env category = some p ∧
      eligibleProfessionals env category = l₁ ++ p :: l₂ ∧
      (∀ q ∈ l₁, calculateScore env q < calculateScore env p) ∧
      ∀ q ∈ eligibleProfessionals env category,
        calculateScore env q ≤ calculateScore env p := by
  cases hfa : firstArgmax (calculateScore env) (eligibleProfessionals env category)
    with
  | none => exact absurd ((firstArgmax_eq_none _ _).mp hfa) h
  | some p =>
    obtain ⟨l₁, l₂, heq, hpre, hall⟩ :=
      firstArgmax_spec (calculateScore env) (eligibleProfessionals env category)
        p hfa
    refine ⟨p, l₁, l₂, ?_, heq, hpre, hall⟩
    unfold find_best_professional
    dsimp only
    rw [if_neg h, sortDesc_head_map (calculateScore env)
      (eligibleProfessionals env category), hfa]
    rfl

/-- Witness for C7 at the demo environment: the eligible list is non-empty and
the returned best professional is score-maximal with the first-tie-wins
prefix property. -/
theorem find_best_first_maximal_witness :
    eligibleProfessionals demoEnv demoCategory ≠ [] ∧
    (∃ p l₁ l₂, find_best_professional demoEnv demoCategory = some p ∧
      eligibleProfessionals demoEnv demoCategory = l₁ ++ p :: l₂ ∧
      (∀ q ∈ l₁, calculateScore demoEnv q < calculateScore demoEnv p) ∧
      ∀ q ∈ eligibleProfessionals demoEnv demoCategory,
        calculateScore demoEnv q ≤ calculateScore demoEnv p) :=
  ⟨by decide, find_best_first_maximal demoEnv demoCategory (by decide)⟩

end DCBackend
